import Mathlib

/-!
Verification of the Snap_Organizer search engine
(`src/src-tauri/src/search_engine.rs` and the command layer
`src/src-tauri/src/lib.rs`).

Shallow embedding notes.
* The engine stores documents in a tantivy index.  We model the index as the
  list of live committed documents together with a commit counter; the
  tantivy writer/reader machinery (buffering, segments, snapshots) is
  abstracted away because every mutating method of the source commits before
  returning and every claim is about post-commit observable state.
* Term queries (`TermQuery::new`) and delete terms resolve against a
  field's inverted index, so their semantics depend on whether the schema
  indexes the field.  The `tags` field is indexed with the standard
  tokenizer, so a tag term matches a document exactly when it equals one of
  the tokens of the flattened tags text.  `id` and `created_at`, however,
  are registered STORED-only — `create_schema` gives them no indexing
  options (search_engine.rs lines 82, 123) — so they have no inverted index
  and a term on them can match no document.  Depending on the tantivy
  version, resolving such a term either errors at scorer/commit time or
  silently matches nothing; the model adopts the silently-matching-nothing
  behavior, and no theorem below rests on the difference between the two
  behaviors beyond the fact that the term never matches a document.
* tantivy's standard tokenizer splits on non-alphanumeric characters and
  lowercases (ASCII lowering suffices for every claim).  `QueryParser` over
  the five default fields is modelled as: tokenize the query string and match
  a document when any token occurs in any default field's token list
  (OR-of-terms).  Its possible syntax errors are abstracted as a concrete
  decidable condition (an unbalanced double quote), which is one of the real
  parser's error cases; the theorems about malformed queries only use the
  fact that `parse_query` returned an error.
* The BM25 relevance value (an `f32` in the source) is abstracted as a
  natural-number relevance score counting (term, field) matches; the claims
  only depend on results being ordered by non-increasing score, never on the
  numeric value.
-/

/-- ASCII lowering of a character list, modelling Rust's `to_lowercase` on
the inputs the claims use. -/
def lowerChars (l : List Char) : List Char := l.map Char.toLower

/-- Splitting into maximal alphanumeric runs: `acc` holds the (reversed)
characters of the token currently being read. -/
def tokenAux (acc : List Char) : List Char → List String
  | [] => if acc.isEmpty then [] else [String.mk acc.reverse]
  | c :: cs =>
      if c.isAlphanum then tokenAux (c :: acc) cs
      else (if acc.isEmpty then [] else [String.mk acc.reverse]) ++ tokenAux [] cs

/-- Standard-tokenizer model: lowercase, split on non-alphanumeric characters,
drop empty pieces. -/
def tokenize (s : String) : List String :=
  tokenAux [] (lowerChars s.toList)

/-- Boolean test that `n` occurs as a contiguous run at the head of `l`. -/
def headRun : List Char → List Char → Bool
  | [], _ => true
  | _ :: _, [] => false
  | a :: as, b :: bs => a == b && headRun as bs

/-- Boolean test that `n` occurs as a contiguous run somewhere in `l`,
modelling Rust's `str::contains`. -/
def hasRun (n : List Char) : List Char → Bool
  | [] => n.isEmpty
  | c :: rest => headRun n (c :: rest) || hasRun n rest

/-- Case-insensitive substring test,
`hay.to_lowercase().contains(&needle.to_lowercase())` in the source. -/
def containsCI (hay needle : String) : Bool :=
  hasRun (lowerChars needle.toList) (lowerChars hay.toList)

/-- `SearchableItem` (search_engine.rs lines 16-27).  Timestamps are UTC
instants; we model them as integers (microseconds since epoch, as tantivy
stores them). -/
structure SearchableItem where
  id : String
  ocr_text : String
  memo : String
  tags : List String
  location_name : Option String
  created_at : Int
  updated_at : Int
  group_title : Option String
  image_path : Option String
deriving DecidableEq, Repr

/-- An index document as built by `add_item` (search_engine.rs lines 154-165):
tags joined with a space, missing optionals replaced by the empty string. -/
structure Doc where
  id : String
  ocr_text : String
  memo : String
  tags : String
  location_name : String
  created_at : Int
  updated_at : Int
  group_title : String
  image_path : String
deriving DecidableEq, Repr

/-- The index: live committed documents plus how many commits happened. -/
structure EngineState where
  docs : List Doc
  commits : Nat
deriving DecidableEq, Repr

/-- `SearchQuery` (search_engine.rs lines 37-45). -/
structure SearchQuery where
  query : String
  fields : Option (List String)
  date_from : Option Int
  date_to : Option Int
  tags : Option (List String)
  limit : Option Nat
deriving DecidableEq, Repr

/-- `SearchResult` (search_engine.rs lines 29-35); the score is the abstract
relevance value. -/
structure SearchResult where
  id : String
  score : Nat
  highlights : List String
  matched_fields : List String
deriving DecidableEq, Repr

/-- Document construction in `add_item`: the `doc!` macro invocation. -/
def mkDoc (item : SearchableItem) : Doc :=
  { id := item.id
    ocr_text := item.ocr_text
    memo := item.memo
    tags := String.intercalate " " item.tags
    location_name := item.location_name.getD ""
    created_at := item.created_at
    updated_at := item.updated_at
    group_title := item.group_title.getD ""
    image_path := item.image_path.getD "" }

/-- `add_item` (search_engine.rs lines 154-170): append the document, commit
once. -/
def add_item (st : EngineState) (item : SearchableItem) :
    Except String EngineState :=
  .ok { docs := st.docs ++ [mkDoc item], commits := st.commits + 1 }

/-- `writer.delete_term` with `Term::from_field_text(fields["id"], i)`: the
`id` field is registered STORED-only, never indexed (search_engine.rs line
82), so the term resolves against no inverted index and removes no document
— the live document list is unchanged whatever `i` is. -/
def deleteTermById (st : EngineState) (i : String) : EngineState :=
  st

/-- `update_item` (search_engine.rs lines 172-180): delete the id term, then
`add_item` (which performs the single commit).  Because the delete term on
the never-indexed `id` field removes nothing, the net effect is an append. -/
def update_item (st : EngineState) (item : SearchableItem) :
    Except String EngineState :=
  add_item (deleteTermById st item.id) item

/-- `delete_item` (search_engine.rs lines 182-187): delete the id term and
commit; no existence check anywhere.  The delete term on the never-indexed
`id` field removes nothing (see the module comment: in some tantivy versions
its commit-time resolution errors instead; the model adopts the
matching-nothing behavior). -/
def delete_item (st : EngineState) (i : String) : Except String EngineState :=
  .ok { docs := (deleteTermById st i).docs, commits := st.commits + 1 }

/-- `clear_index` (search_engine.rs lines 317-321). -/
def clear_index (st : EngineState) : Except String EngineState :=
  .ok { docs := [], commits := st.commits + 1 }

/-- `get_stats` (search_engine.rs lines 323-330), abstracted to a single
segment holding all live documents. -/
def get_stats (st : EngineState) : Except String (List (String × Nat)) :=
  .ok [("segment_0", st.docs.length)]

/-- The nine schema field names registered in `get_fields`
(search_engine.rs lines 140-152). -/
def schemaFieldNames : List String :=
  ["id", "ocr_text", "memo", "tags", "location_name", "created_at",
   "updated_at", "group_title", "image_path"]

/-- A parsed free-text query: the query's tokens, matched OR-of-terms over
the five default fields. -/
structure ParsedQuery where
  terms : List String
deriving DecidableEq, Repr

/-- `QueryParser::parse_query` model: fails on malformed syntax (abstracted
as an unbalanced double quote), otherwise yields the token list. -/
def parse_query (q : String) : Except String ParsedQuery :=
  if q.toList.count '"' % 2 = 1 then .error "query parse error"
  else .ok ⟨tokenize q⟩

/-- The five default search fields handed to `QueryParser::for_index`
(search_engine.rs lines 191-197), as accessors of the stored text. -/
def defaultFieldTexts (d : Doc) : List String :=
  [d.ocr_text, d.memo, d.tags, d.location_name, d.group_title]

/-- A document matches a parsed query when some query token occurs among the
indexed tokens of some default field. -/
def matchesParsed (pq : ParsedQuery) (d : Doc) : Bool :=
  pq.terms.any (fun t => (defaultFieldTexts d).any (fun s => (tokenize s).contains t))

/-- Abstract relevance score: the number of (query token, default field)
pairs that match.  Stands in for tantivy's BM25 value; only the induced
ordering matters to the claims. -/
def scoreParsed (pq : ParsedQuery) (d : Doc) : Nat :=
  (pq.terms.map
    (fun t => ((defaultFieldTexts d).filter (fun s => (tokenize s).contains t)).length)).sum

/-- The main query built at search_engine.rs lines 200-212: either the
directly parsed query (`fields` unset) or a should-list of sub-queries
(`fields` set). -/
inductive MainQuery where
  | simple : ParsedQuery → MainQuery
  | shouldList : List ParsedQuery → MainQuery
deriving DecidableEq, Repr

/-- Main-query construction (search_engine.rs lines 200-212).  With `fields`
set, the loop pushes one `(Should, parsed)` clause per requested name found
in the schema map — the parsed sub-query is `parse_query` of the whole query
over the default fields (the loop's `field` binding is never used) — and a
parse failure skips the push (`if let Ok`).  With `fields` unset, the parse
error propagates (`?`). -/
def buildMain (q : SearchQuery) : Except String MainQuery :=
  match q.fields with
  | some fs =>
      .ok (.shouldList (fs.foldl
        (fun acc n =>
          if schemaFieldNames.contains n then
            match parse_query q.query with
            | .ok pq => acc ++ [pq]
            | .error _ => acc
          else acc) []))
  | none =>
      match parse_query q.query with
      | .ok pq => .ok (.simple pq)
      | .error e => .error e

/-- Boolean-query semantics for the main query: a should-list matches when at
least one clause matches (an empty should-list matches nothing). -/
def matchesMain : MainQuery → Doc → Bool
  | .simple pq, d => matchesParsed pq d
  | .shouldList subs, d => subs.any (fun pq => matchesParsed pq d)

/-- Relevance of the main query: a should-list sums its clauses' scores. -/
def scoreMain : MainQuery → Doc → Nat
  | .simple pq, d => scoreParsed pq d
  | .shouldList subs, d => (subs.map (fun pq => scoreParsed pq d)).sum

/-- The exact-match `created_at` bounds collected at search_engine.rs lines
217-232: each present bound contributes one `Must` term filter. -/
def dateFilterList (q : SearchQuery) : List Int :=
  (match q.date_from with | some d => [d] | none => []) ++
  (match q.date_to with | some d => [d] | none => [])

/-- The tag term filters collected at search_engine.rs lines 234-240: one
`Must` term filter per listed tag. -/
def tagFilterList (q : SearchQuery) : List String :=
  q.tags.getD []

/-- Whether a document satisfies one `Must` term filter on `created_at`:
the `created_at` field is registered STORED-only, with no indexing options
(search_engine.rs line 123), so the term resolves against no inverted index
and matches no document, whatever the bound is. -/
def dateTermMatches (b : Int) (d : Doc) : Bool := false

/-- Conjunction of all `Must` filters: every present date bound contributes
a term filter on the never-indexed `created_at` field (satisfiable by no
document), and every listed tag must occur among the tokens of the
flattened tags field. -/
def passesFilters (q : SearchQuery) (d : Doc) : Bool :=
  (dateFilterList q).all (fun b => dateTermMatches b d) &&
  (tagFilterList q).all (fun t => (tokenize d.tags).contains t)

/-- The documents matching the final boolean query (main query `Must` plus
every filter `Must`; with no filters the final query is the main query, which
conjoins the same condition since `passesFilters` is then trivially true). -/
def searchHits (st : EngineState) (q : SearchQuery) (m : MainQuery) : List Doc :=
  st.docs.filter (fun d => matchesMain m d && passesFilters q d)

/-- The stored-text view `doc.get_first(field).and_then(|v| v.as_text())`:
text fields yield their stored string, the date fields are not text. -/
def storedTextOf (d : Doc) (n : String) : Option String :=
  if n = "id" then some d.id
  else if n = "ocr_text" then some d.ocr_text
  else if n = "memo" then some d.memo
  else if n = "tags" then some d.tags
  else if n = "location_name" then some d.location_name
  else if n = "group_title" then some d.group_title
  else if n = "image_path" then some d.image_path
  else none

/-- The four highlightable fields (search_engine.rs line 283). -/
def hlFieldNames : List String :=
  ["ocr_text", "memo", "location_name", "group_title"]

/-- `generate_highlights` (search_engine.rs lines 279-296): for each
highlightable field whose stored text contains the raw query
case-insensitively, push `"<field>: <text>"`. -/
def generate_highlights (d : Doc) (q : String) : List String :=
  hlFieldNames.foldl
    (fun acc n =>
      match storedTextOf d n with
      | some t => if containsCI t q then acc ++ [n ++ ": " ++ t] else acc
      | none => acc) []

/-- The five fields checked by `get_matched_fields`
(search_engine.rs line 302). -/
def matchedCheckFields : List String :=
  ["ocr_text", "memo", "tags", "location_name", "group_title"]

/-- `get_matched_fields` (search_engine.rs lines 298-315). -/
def get_matched_fields (d : Doc) (q : String) : List String :=
  matchedCheckFields.foldl
    (fun acc n =>
      match storedTextOf d n with
      | some t => if containsCI t q then acc ++ [n] else acc
      | none => acc) []

/-- One `SearchResult` from a hit (search_engine.rs lines 256-273). -/
def mkResult (q : SearchQuery) (m : MainQuery) (d : Doc) : SearchResult :=
  { id := d.id
    score := scoreMain m d
    highlights := generate_highlights d q.query
    matched_fields := get_matched_fields d q.query }

/-- Ordering used by the `TopDocs` collector: non-increasing score. -/
def byScore (a b : SearchResult) : Prop := b.score ≤ a.score

instance : DecidableRel byScore := fun a b => Nat.decLe b.score a.score

instance : IsTotal SearchResult byScore :=
  ⟨fun a b => (Nat.le_total b.score a.score).imp (fun h => h) (fun h => h)⟩

instance : IsTrans SearchResult byScore :=
  ⟨fun _ _ _ h1 h2 => Nat.le_trans h2 h1⟩

/-- `TopDocs` ranking model: sort the results by non-increasing score. -/
def sortByScore (l : List SearchResult) : List SearchResult :=
  l.insertionSort byScore

/-- `search` (search_engine.rs lines 189-277): build the main query, conjoin
the filters, rank the hits and keep the top `limit` (default 20). -/
def search (st : EngineState) (q : SearchQuery) :
    Except String (List SearchResult) :=
  match buildMain q with
  | .error e => .error e
  | .ok m =>
      .ok ((sortByScore ((searchHits st q m).map (mkResult q m))).take
        (q.limit.getD 20))

/-! The tauri command layer (`src/src-tauri/src/lib.rs`).  The global state
is `Mutex<Option<SearchEngine>>`; each command errors out when the engine is
not initialized and leaves the state untouched. -/

/-- The precondition error message of every command in lib.rs. -/
def notInitMsg : String := "Search engine not initialized"

/-- `add_item_to_index` (lib.rs lines 34-44). -/
def add_item_to_index (g : Option EngineState) (item : SearchableItem) :
    Except String Unit × Option EngineState :=
  match g with
  | none => (.error notInitMsg, none)
  | some st =>
      match add_item st item with
      | .ok st2 => (.ok (), some st2)
      | .error e => (.error e, some st)

/-- `update_item_in_index` (lib.rs lines 46-56). -/
def update_item_in_index (g : Option EngineState) (item : SearchableItem) :
    Except String Unit × Option EngineState :=
  match g with
  | none => (.error notInitMsg, none)
  | some st =>
      match update_item st item with
      | .ok st2 => (.ok (), some st2)
      | .error e => (.error e, some st)

/-- `delete_item_from_index` (lib.rs lines 58-68). -/
def delete_item_from_index (g : Option EngineState) (i : String) :
    Except String Unit × Option EngineState :=
  match g with
  | none => (.error notInitMsg, none)
  | some st =>
      match delete_item st i with
      | .ok st2 => (.ok (), some st2)
      | .error e => (.error e, some st)

/-- `search_items` (lib.rs lines 70-79). -/
def search_items (g : Option EngineState) (q : SearchQuery) :
    Except String (List SearchResult) × Option EngineState :=
  match g with
  | none => (.error notInitMsg, none)
  | some st => (search st q, some st)

/-- `clear_search_index` (lib.rs lines 81-90). -/
def clear_search_index (g : Option EngineState) :
    Except String Unit × Option EngineState :=
  match g with
  | none => (.error notInitMsg, none)
  | some st =>
      match clear_index st with
      | .ok st2 => (.ok (), some st2)
      | .error e => (.error e, some st)

/-- `get_search_stats` (lib.rs lines 92-100). -/
def get_search_stats (g : Option EngineState) :
    Except String (List (String × Nat)) × Option EngineState :=
  match g with
  | none => (.error notInitMsg, none)
  | some st => (get_stats st, some st)

/-! Concrete sample inputs used by counterexamples and witnesses. -/

/-- A sample item whose only searchable text for the query `"hello"` is in
`memo`; its `ocr_text` is empty. -/
def sampleItem : SearchableItem :=
  { id := "a", ocr_text := "", memo := "hello world",
    tags := ["receipt", "food"], location_name := none,
    created_at := 5, updated_at := 5, group_title := none, image_path := none }

/-- The engine state after adding `sampleItem` to a fresh index. -/
def sampleState : EngineState := { docs := [mkDoc sampleItem], commits := 1 }

/-! Helper lemmas. -/

/-- C9: every operation other than init (add, update, delete, search, clear,
stats), invoked while the engine is uninitialized, returns the
"engine not initialized" error and leaves the state uninitialized. -/
theorem c9_requires_init (item : SearchableItem) (i : String) (q : SearchQuery) :
    add_item_to_index none item = (.error notInitMsg, none) ∧
    update_item_in_index none item = (.error notInitMsg, none) ∧
    delete_item_from_index none i = (.error notInitMsg, none) ∧
    search_items none q = (.error notInitMsg, none) ∧
    clear_search_index none = (.error notInitMsg, none) ∧
    get_search_stats none = (.error notInitMsg, none) :=
  ⟨rfl, rfl, rfl, rfl, rfl, rfl⟩

/-- C10: a search with an empty query string, no field restriction and no
date or tag filters returns the empty result list in every index state: the
empty string parses to a query with no terms, which matches nothing. -/
theorem c10_empty_query (st : EngineState) (l : Option Nat) :
    search st ⟨"", none, none, none, none, l⟩ = .ok [] := by
  have hb : buildMain ⟨"", none, none, none, none, l⟩ = .ok (.simple ⟨[]⟩) := rfl
  have hh : searchHits st ⟨"", none, none, none, none, l⟩ (.simple ⟨[]⟩) = [] := by
    simp [searchHits, matchesMain, matchesParsed]
  simp [search, hb, hh, sortByScore, List.insertionSort]

/-- The first version of the claim-C3 scenario item: id `"x"`, memo
`"old note"`. -/
def oldItem : SearchableItem :=
  { id := "x", ocr_text := "", memo := "old note", tags := [],
    location_name := none, created_at := 0, updated_at := 0,
    group_title := none, image_path := none }

/-- The updated version of the same item: id `"x"`, memo `"new note"`. -/
def newItem : SearchableItem :=
  { oldItem with memo := "new note" }

/-- C3 (failing input): `update_item` appends instead of replacing.  The
delete step uses `Term::from_field_text` on the `id` field
(search_engine.rs lines 174-175), but `create_schema` registers `id`
STORED-only with no indexing options (line 82), so the delete term matches
no document: after updating id `"x"` from memo `"old note"` to
`"new note"`, two live documents carry id `"x"`, and a search for `"old"`
still returns `"x"` — contradicting the claimed delete-then-add semantics
and the at-most-one-live-document-per-id invariant. -/
theorem c3_update_appends_bug :
    update_item { docs := [mkDoc oldItem], commits := 1 } newItem =
      .ok { docs := [mkDoc oldItem, mkDoc newItem], commits := 2 } ∧
    (([mkDoc oldItem, mkDoc newItem] : List Doc).filter
      (fun d => d.id = newItem.id)).length = 2 ∧
    search { docs := [mkDoc oldItem, mkDoc newItem], commits := 2 }
        ⟨"old", none, none, none, none, none⟩ =
      .ok [⟨"x", 1, ["memo: old note"], ["memo"]⟩] :=
  ⟨rfl, by decide, rfl⟩

/-- The field-restricted query of the claim-C2 scenario: search for
`"hello"` restricted to `ocr_text` only. -/
def restrictQuery : SearchQuery :=
  ⟨"hello", some ["ocr_text"], none, none, none, none⟩

/-- C2 (failing input): restricting `fields` to `["ocr_text"]` does NOT
restrict matching.  `sampleItem` has empty `ocr_text` and matches `"hello"`
only in `memo` (its `matched_fields` list is exactly `["memo"]`), yet the
search restricted to `ocr_text` returns it: the loop at search_engine.rs
lines 200-209 parses the whole query against the default fields once per
listed schema field and never uses the bound `field`, so each `Should`
sub-query still searches all five default fields. -/
theorem c2_field_restriction_bug :
    sampleItem.ocr_text = "" ∧
    add_item ⟨[], 0⟩ sampleItem = .ok sampleState ∧
    search sampleState restrictQuery =
      .ok [⟨"a", 1, ["memo: hello world"], ["memo"]⟩] :=
  ⟨rfl, rfl, rfl⟩

/-- The malformed query (unbalanced quote) with `fields` set, for claim C4. -/
def malformedFieldsQuery : SearchQuery :=
  ⟨"\"", some ["ocr_text"], none, none, none, none⟩

/-- C4 (counterexample): with `fields` set, a query whose text fails parsing
does NOT make `search` return an error — the `if let Ok` at
search_engine.rs line 204 silently swallows the parse failure, so the search
succeeds with an empty result list even though the index holds a document. -/
theorem c4_counterexample :
    parse_query malformedFieldsQuery.query = .error "query parse error" ∧
    search sampleState malformedFieldsQuery = .ok [] :=
  ⟨rfl, rfl⟩

/-- C4 (amended): when the query text fails parsing, `search` returns the
parse error — with no result list — if and only if `fields` is unset; with
`fields` set the failure is swallowed and `search` succeeds with the empty
result list. -/
theorem c4_amended_malformed (st : EngineState) (q : SearchQuery) (e : String)
    (hp : parse_query q.query = .error e) :
    (q.fields = none → search st q = .error e) ∧
    (∀ fs, q.fields = some fs → search st q = .ok []) := by
  constructor
  · intro hf
    simp [search, buildMain, hf, hp]
  · intro fs hf
    have hsubs : ∀ acc : List ParsedQuery,
        fs.foldl (fun acc n =>
          if schemaFieldNames.contains n then
            match parse_query q.query with
            | .ok pq => acc ++ [pq]
            | .error _ => acc
          else acc) acc = acc := by
      intro acc
      induction fs generalizing acc with
      | nil => rfl
      | cons n t ih =>
          by_cases hc : schemaFieldNames.contains n <;> simp [hc, hp, ih]
    have hb : buildMain q = .ok (.shouldList []) := by
      simp only [buildMain, hf]
      rw [hsubs []]
    have hh : searchHits st q (.shouldList []) = [] := by
      simp [searchHits, matchesMain]
    simp [search, hb, hh, sortByScore, List.insertionSort]

/-- Witness for the amended C4 at a concrete input: the unbalanced-quote
query against `sampleState`, once with `fields` unset and once with
`fields = ["ocr_text"]`. -/
theorem c4_amended_malformed_witness :
    search sampleState ⟨"\"", none, none, none, none, none⟩ =
        .error "query parse error" ∧
    search sampleState malformedFieldsQuery = .ok [] := by
  refine ⟨?_, ?_⟩
  · exact (c4_amended_malformed sampleState
      ⟨"\"", none, none, none, none, none⟩ "query parse error" rfl).1 rfl
  · exact (c4_amended_malformed sampleState malformedFieldsQuery
      "query parse error" rfl).2 ["ocr_text"] rfl

/-- A hit is present in the returned result list (carrying its id) whenever
the number of hits does not exceed the limit. -/
theorem mem_results_of_mem_hits (st : EngineState) (q : SearchQuery)
    (m : MainQuery) (res : List SearchResult) (doc : Doc)
    (hm : buildMain q = .ok m) (hs : search st q = .ok res)
    (hlen : (searchHits st q m).length ≤ q.limit.getD 20)
    (hdoc : doc ∈ searchHits st q m) :
    ∃ r ∈ res, r.id = doc.id := by
  have hres : res =
      (sortByScore ((searchHits st q m).map (mkResult q m))).take (q.limit.getD 20) := by
    simp only [search, hm] at hs
    exact (Except.ok.inj hs).symm
  have hlen2 : (sortByScore ((searchHits st q m).map (mkResult q m))).length =
      (searchHits st q m).length := by
    simp [sortByScore]
  have htake : (sortByScore ((searchHits st q m).map (mkResult q m))).take
      (q.limit.getD 20) = sortByScore ((searchHits st q m).map (mkResult q m)) :=
    List.take_of_length_le (by rw [hlen2]; exact hlen)
  refine ⟨mkResult q m doc, ?_, rfl⟩
  rw [hres, htake]
  exact (List.mem_insertionSort byScore).mpr (List.mem_map_of_mem _ hdoc)

/-- The claim-C1 scenario query: `"hello"` with `date_from` equal to the
sample document's `created_at`. -/
def dateQueryHit : SearchQuery := ⟨"hello", none, some 5, none, none, none⟩

/-- C1 (failing input): the date filter is unsatisfiable.  `search` compiles
`date_from` into a `Must` `TermQuery` on `created_at` (search_engine.rs
lines 217-224), but `create_schema` registers `created_at` STORED-only with
no indexing options (line 123), so the term resolves against no inverted
index and matches no document: the sample document matches the main query
`"hello"` and its `created_at` equals the bound `5` exactly, yet the search
returns the empty result list — contradicting the claimed exact-match
filter semantics under which the document would be returned. -/
theorem c1_date_filter_bug :
    (mkDoc sampleItem).created_at = 5 ∧
    buildMain dateQueryHit = .ok (.simple ⟨["hello"]⟩) ∧
    matchesMain (.simple ⟨["hello"]⟩) (mkDoc sampleItem) = true ∧
    search sampleState dateQueryHit = .ok [] :=
  ⟨rfl, rfl, rfl, rfl⟩

/-- C5: every listed tag contributes a mandatory (`Must`) term filter on the
flattened tags field — term-level AND: a document is a hit exactly when it
matches the main query and every listed tag occurs among the tokens of its
flattened tags text; such a hit is returned (its id appears in the results)
when the limit is not exceeded. -/
theorem c5_tag_and_filter (st : EngineState) (q : SearchQuery)
    (m : MainQuery) (ts : List String) (doc : Doc)
    (hm : buildMain q = .ok m) (htags : q.tags = some ts)
    (hdf : q.date_from = none) (hdt : q.date_to = none) :
    (passesFilters q doc = true ↔
        ∀ t ∈ ts, (tokenize doc.tags).contains t = true) ∧
    (doc ∈ searchHits st q m ↔
        doc ∈ st.docs ∧ matchesMain m doc = true ∧
          ∀ t ∈ ts, (tokenize doc.tags).contains t = true) ∧
    (∀ res, search st q = .ok res →
        (searchHits st q m).length ≤ q.limit.getD 20 →
        doc ∈ st.docs → matchesMain m doc = true →
        (∀ t ∈ ts, (tokenize doc.tags).contains t = true) →
        ∃ r ∈ res, r.id = doc.id) := by
  have hpass : passesFilters q doc = true ↔
      ∀ t ∈ ts, (tokenize doc.tags).contains t = true := by
    simp [passesFilters, dateFilterList, tagFilterList, hdf, hdt, htags]
  have hmemHits : doc ∈ searchHits st q m ↔
      doc ∈ st.docs ∧ matchesMain m doc = true ∧
        ∀ t ∈ ts, (tokenize doc.tags).contains t = true := by
    rw [searchHits, List.mem_filter, Bool.and_eq_true, hpass]
  refine ⟨hpass, hmemHits, ?_⟩
  intro res hs hlen hmem hmain htok
  exact mem_results_of_mem_hits st q m res doc hm hs hlen
    (hmemHits.mpr ⟨hmem, hmain, htok⟩)

/-- Tag filter `["receipt", "travel"]` with the main query `"hello"`. -/
def tagQueryRT : SearchQuery :=
  ⟨"hello", none, none, none, some ["receipt", "travel"], none⟩

/-- Tag filter `["receipt"]` with the main query `"hello"`. -/
def tagQueryR : SearchQuery :=
  ⟨"hello", none, none, none, some ["receipt"], none⟩

/-- Witness for C5 at the claim's concrete example: the sample document has
tags `["receipt", "food"]`; with the filter `["receipt", "travel"]` it is not
a hit, with the filter `["receipt"]` it is a hit and its id is returned. -/
theorem c5_tag_and_filter_witness :
    mkDoc sampleItem ∉ searchHits sampleState tagQueryRT (.simple ⟨["hello"]⟩) ∧
    mkDoc sampleItem ∈ searchHits sampleState tagQueryR (.simple ⟨["hello"]⟩) ∧
    (∃ r ∈ [(⟨"a", 1, ["memo: hello world"], ["memo"]⟩ : SearchResult)],
        r.id = (mkDoc sampleItem).id) := by
  have hRT := c5_tag_and_filter sampleState tagQueryRT (.simple ⟨["hello"]⟩)
    ["receipt", "travel"] (mkDoc sampleItem) rfl rfl rfl rfl
  have hR := c5_tag_and_filter sampleState tagQueryR (.simple ⟨["hello"]⟩)
    ["receipt"] (mkDoc sampleItem) rfl rfl rfl rfl
  refine ⟨?_, ?_, ?_⟩
  · intro hmem
    have h3 := (hRT.2.1.mp hmem).2.2 "travel" (by decide)
    exact absurd h3 (by decide)
  · exact hR.2.1.mpr ⟨by decide, by decide, by decide⟩
  · exact hR.2.2 [⟨"a", 1, ["memo: hello world"], ["memo"]⟩] rfl
      (by decide) (by decide) (by decide) (by decide)

/-- C6: the result list has exactly `min limit hits` entries — hence at most
`limit`, which defaults to 20 when unset — and is ordered by non-increasing
score; in particular, with at least 20 hits and no limit set, exactly 20
results are returned. -/
theorem c6_limit_and_order (st : EngineState) (q : SearchQuery)
    (m : MainQuery) (res : List SearchResult)
    (hm : buildMain q = .ok m) (hs : search st q = .ok res) :
    res.length = min (q.limit.getD 20) (searchHits st q m).length ∧
    res.length ≤ q.limit.getD 20 ∧
    List.Pairwise byScore res ∧
    (q.limit = none → 20 ≤ (searchHits st q m).length → res.length = 20) := by
  have hres : res =
      (sortByScore ((searchHits st q m).map (mkResult q m))).take (q.limit.getD 20) := by
    simp only [search, hm] at hs
    exact (Except.ok.inj hs).symm
  subst hres
  have hlen : ((sortByScore ((searchHits st q m).map (mkResult q m))).take
      (q.limit.getD 20)).length = min (q.limit.getD 20) (searchHits st q m).length := by
    simp [sortByScore]
  refine ⟨hlen, ?_, ?_, ?_⟩
  · rw [hlen]; exact Nat.min_le_left _ _
  · exact List.Pairwise.sublist (List.take_sublist _ _)
      (List.sorted_insertionSort byScore _)
  · intro hnone h20
    rw [hlen, hnone]
    simpa using Nat.min_eq_left h20

/-- Thirty identical copies of the sample document, all matching `"hello"`. -/
def manyState : EngineState :=
  { docs := (List.range 30).map (fun _ => mkDoc sampleItem), commits := 30 }

/-- The plain `"hello"` query with no filters and no limit. -/
def plainHello : SearchQuery := ⟨"hello", none, none, none, none, none⟩

/-- Witness for C6 at a concrete input: with 30 matching documents and no
limit set, exactly 20 results come back, ordered by non-increasing score. -/
theorem c6_limit_and_order_witness :
    ∃ res, search manyState plainHello = .ok res ∧ res.length = 20 ∧
      List.Pairwise byScore res := by
  refine ⟨(sortByScore ((searchHits manyState plainHello
      (.simple ⟨["hello"]⟩)).map (mkResult plainHello (.simple ⟨["hello"]⟩)))).take
      (plainHello.limit.getD 20), rfl, ?_, ?_⟩
  · have h := c6_limit_and_order manyState plainHello (.simple ⟨["hello"]⟩) _ rfl rfl
    exact h.2.2.2 rfl (by decide)
  · have h := c6_limit_and_order manyState plainHello (.simple ⟨["hello"]⟩) _ rfl rfl
    exact h.2.2.1

/-- Two appends with literal prefixes that start with different characters
are never equal. -/
theorem append_ne_of_head_ne (p1 p2 a b : String) (c1 c2 : Char)
    (l1 l2 : List Char) (h1 : p1.data = c1 :: l1) (h2 : p2.data = c2 :: l2)
    (hc : c1 ≠ c2) : p1 ++ a ≠ p2 ++ b := by
  intro h
  have hd : (p1 ++ a).data = (p2 ++ b).data := congrArg String.data h
  rw [String.data_append, String.data_append, h1, h2] at hd
  simp only [List.cons_append, List.cons.injEq] at hd
  exact hc hd.1

/-- C7: the highlights of a hit consist, in field order, of one entry
`"<field>: <full stored text>"` for exactly those of the four highlightable
fields whose stored text contains the raw query case-insensitively — each
matching field contributes exactly one entry, a non-matching field
contributes none. -/
theorem c7_highlights (d : Doc) (q : String) :
    generate_highlights d q =
      (if containsCI d.ocr_text q then ["ocr_text: " ++ d.ocr_text] else []) ++
      (if containsCI d.memo q then ["memo: " ++ d.memo] else []) ++
      (if containsCI d.location_name q then ["location_name: " ++ d.location_name] else []) ++
      (if containsCI d.group_title q then ["group_title: " ++ d.group_title] else []) ∧
    List.count ("ocr_text: " ++ d.ocr_text) (generate_highlights d q) =
      (if containsCI d.ocr_text q then 1 else 0) ∧
    List.count ("memo: " ++ d.memo) (generate_highlights d q) =
      (if containsCI d.memo q then 1 else 0) ∧
    List.count ("location_name: " ++ d.location_name) (generate_highlights d q) =
      (if containsCI d.location_name q then 1 else 0) ∧
    List.count ("group_title: " ++ d.group_title) (generate_highlights d q) =
      (if containsCI d.group_title q then 1 else 0) := by
  have hOM : ∀ x y : String, "ocr_text: " ++ x ≠ "memo: " ++ y := fun x y =>
    append_ne_of_head_ne _ _ x y 'o' 'm' _ _ rfl rfl (by decide)
  have hOL : ∀ x y : String, "ocr_text: " ++ x ≠ "location_name: " ++ y := fun x y =>
    append_ne_of_head_ne _ _ x y 'o' 'l' _ _ rfl rfl (by decide)
  have hOG : ∀ x y : String, "ocr_text: " ++ x ≠ "group_title: " ++ y := fun x y =>
    append_ne_of_head_ne _ _ x y 'o' 'g' _ _ rfl rfl (by decide)
  have hML : ∀ x y : String, "memo: " ++ x ≠ "location_name: " ++ y := fun x y =>
    append_ne_of_head_ne _ _ x y 'm' 'l' _ _ rfl rfl (by decide)
  have hMG : ∀ x y : String, "memo: " ++ x ≠ "group_title: " ++ y := fun x y =>
    append_ne_of_head_ne _ _ x y 'm' 'g' _ _ rfl rfl (by decide)
  have hLG : ∀ x y : String, "location_name: " ++ x ≠ "group_title: " ++ y := fun x y =>
    append_ne_of_head_ne _ _ x y 'l' 'g' _ _ rfl rfl (by decide)
  have hnf : generate_highlights d q =
      (if containsCI d.ocr_text q then ["ocr_text: " ++ d.ocr_text] else []) ++
      (if containsCI d.memo q then ["memo: " ++ d.memo] else []) ++
      (if containsCI d.location_name q then ["location_name: " ++ d.location_name] else []) ++
      (if containsCI d.group_title q then ["group_title: " ++ d.group_title] else []) := by
    by_cases h1 : containsCI d.ocr_text q <;>
      by_cases h2 : containsCI d.memo q <;>
      by_cases h3 : containsCI d.location_name q <;>
      by_cases h4 : containsCI d.group_title q <;>
      simp [generate_highlights, hlFieldNames, storedTextOf, h1, h2, h3, h4]
  refine ⟨hnf, ?_, ?_, ?_, ?_⟩ <;> rw [hnf] <;>
    by_cases h1 : containsCI d.ocr_text q <;>
    by_cases h2 : containsCI d.memo q <;>
    by_cases h3 : containsCI d.location_name q <;>
    by_cases h4 : containsCI d.group_title q <;>
    simp [h1, h2, h3, h4, List.count_append, List.count_cons, List.count_nil,
      hOM, hOL, hOG, hML, hMG, hLG, (hOM _ _).symm, (hOL _ _).symm,
      (hOG _ _).symm, (hML _ _).symm, (hMG _ _).symm, (hLG _ _).symm]
